import Mathlib

/-!
Shallow embedding of the skillic entity registries (User, Outcome, Course,
Session) and their CRUD operations, translated from the TypeScript source.

Modelling conventions:
* `StableBTreeMap<string, T>` is modelled as an association list
  `List (String × T)` with first-match `get`/`insert`/`remove` semantics and
  `values` as the list of stored records; iteration order is abstracted.
* `ic.time()` / `getCurrentDate()` is modelled by an explicit `now : Nat`
  parameter on every operation that stamps a timestamp; `Date` fields become
  `Nat`, nullable `Date` fields become `Option Nat`.
* `uuidv4()` is modelled by an explicit `newId : String` parameter on `add`.
* Functions returning `T | string` become `Except Err T`; the distinct error
  message templates of the source become the constructors of the `Err` type
  (the dynamic parts of each message are carried as constructor arguments).
* JavaScript string comparison (`===`, `!=`) is modelled with decidable
  string equality; `.trim()` is modelled by `jsTrim`, which drops leading and
  trailing whitespace from the character list (`String.trim` itself is not
  kernel-reducible, so an executable equivalent is used).
-/

/-- The storage type: `StableBTreeMap<string, α>` as an association list. -/
abbrev SMap (α : Type) : Type := List (String × α)

namespace SMap

/-- `storage.get(k)`: the value at the first entry whose key is `k`. -/
def get {α : Type} : SMap α → String → Option α
  | [], _ => none
  | (k', v) :: t, k => if k' = k then some v else get t k

/-- `storage.containsKey(k)`. -/
def containsKey {α : Type} (s : SMap α) (k : String) : Bool :=
  (get s k).isSome

/-- `storage.insert(k, v)`: replace the first entry keyed `k`, else append. -/
def insert {α : Type} : SMap α → String → α → SMap α
  | [], k, v => [(k, v)]
  | (k', v') :: t, k, v => if k' = k then (k, v) :: t else (k', v') :: insert t k v

/-- `storage.remove(k)`: drop the first entry keyed `k`. -/
def remove {α : Type} : SMap α → String → SMap α
  | [], _ => []
  | (k', v') :: t, k => if k' = k then t else (k', v') :: remove t k

/-- `storage.values()`. -/
def values {α : Type} (s : SMap α) : List α :=
  s.map Prod.snd

@[simp]
theorem values_nil {α : Type} : values ([] : SMap α) = [] := rfl

@[simp]
theorem values_cons {α : Type} (k : String) (v : α) (t : SMap α) :
    values ((k, v) :: t) = v :: values t := rfl

theorem get_insert_self {α : Type} (s : SMap α) (k : String) (v : α) :
    get (insert s k v) k = some v := by
  induction s with
  | nil => simp [insert, get]
  | cons hd t ih =>
    obtain ⟨k', v'⟩ := hd
    by_cases h : k' = k
    · simp [insert, h, get]
    · simp [insert, h, get, ih]

theorem mem_values_insert {α : Type} {s : SMap α} {k : String} {v b : α}
    (h : b ∈ values (insert s k v)) : b = v ∨ b ∈ values s := by
  induction s with
  | nil => simp only [insert, values_cons, values_nil, List.mem_cons,
      List.not_mem_nil, or_false] at h; exact Or.inl h
  | cons hd t ih =>
    obtain ⟨k', v'⟩ := hd
    by_cases hk : k' = k
    · simp only [insert, if_pos hk, values_cons, List.mem_cons] at h ⊢
      tauto
    · simp only [insert, if_neg hk, values_cons, List.mem_cons] at h ⊢
      rcases h with h | h
      · tauto
      · rcases ih h with h' | h' <;> tauto

theorem get_mem_values {α : Type} {s : SMap α} {k : String} {v : α}
    (h : get s k = some v) : v ∈ values s := by
  induction s with
  | nil => simp [get] at h
  | cons hd t ih =>
    obtain ⟨k', v'⟩ := hd
    by_cases hk : k' = k
    · simp only [get, if_pos hk, Option.some.injEq] at h
      simp [values_cons, h]
    · simp only [get, if_neg hk] at h
      simp only [values_cons, List.mem_cons]
      exact Or.inr (ih h)

theorem values_remove_sublist {α : Type} (s : SMap α) (k : String) :
    List.Sublist (values (remove s k)) (values s) := by
  induction s with
  | nil => simp [remove]
  | cons hd t ih =>
    obtain ⟨k', v'⟩ := hd
    by_cases hk : k' = k
    · simp [remove, hk]
    · simpa [remove, hk] using List.Sublist.cons₂ v' ih

theorem remove_of_get_none {α : Type} {s : SMap α} {k : String}
    (h : get s k = none) : remove s k = s := by
  induction s with
  | nil => simp [remove]
  | cons hd t ih =>
    obtain ⟨k', v'⟩ := hd
    by_cases hk : k' = k
    · simp [get, if_pos hk] at h
    · simp only [get, if_neg hk] at h
      simp [remove, hk, ih h]

end SMap

/-- JavaScript `String.prototype.trim()`: remove leading and trailing
whitespace. Defined on the character list so that it evaluates by kernel
reduction. -/
def jsTrim (s : String) : String :=
  ⟨((s.data.dropWhile Char.isWhitespace).reverse.dropWhile
      Char.isWhitespace).reverse⟩

/-- No two stored records share the same value of the field `g` (the
uniqueness shape "no two live records have equal trimmed F values", with the
trimming folded into `g`). -/
def distinctBy {α : Type} (g : α → String) (s : SMap α) : Prop :=
  List.Pairwise (fun a b => g a ≠ g b) (SMap.values s)

theorem distinctBy_insert_fresh {α : Type} {g : α → String} {s : SMap α}
    {k : String} {v : α} (hfresh : ∀ b ∈ SMap.values s, g v ≠ g b)
    (h : distinctBy g s) : distinctBy g (SMap.insert s k v) := by
  induction s with
  | nil => simp [distinctBy, SMap.insert]
  | cons hd t ih =>
    obtain ⟨k', v'⟩ := hd
    simp only [distinctBy, SMap.values_cons, List.pairwise_cons] at h
    by_cases hk : k' = k
    · simp only [distinctBy, SMap.insert, if_pos hk, SMap.values_cons,
        List.pairwise_cons]
      refine ⟨fun b hb => hfresh b ?_, h.2⟩
      simp only [SMap.values_cons, List.mem_cons]
      exact Or.inr hb
    · simp only [distinctBy, SMap.insert, if_neg hk, SMap.values_cons,
        List.pairwise_cons]
      constructor
      · intro b hb
        rcases SMap.mem_values_insert hb with rfl | hb'
        · exact fun e => hfresh v' (by simp) e.symm
        · exact h.1 b hb'
      · exact ih (fun b hb =>
          hfresh b (by simp only [SMap.values_cons, List.mem_cons]; exact Or.inr hb)) h.2

theorem distinctBy_insert_replace {α : Type} {g : α → String} {s : SMap α}
    {k : String} {v o : α} (hget : SMap.get s k = some o) (heq : g v = g o)
    (h : distinctBy g s) : distinctBy g (SMap.insert s k v) := by
  induction s with
  | nil => simp [SMap.get] at hget
  | cons hd t ih =>
    obtain ⟨k', v'⟩ := hd
    simp only [distinctBy, SMap.values_cons, List.pairwise_cons] at h
    by_cases hk : k' = k
    · simp only [SMap.get, if_pos hk, Option.some.injEq] at hget
      subst hget
      simp only [distinctBy, SMap.insert, if_pos hk, SMap.values_cons,
        List.pairwise_cons]
      exact ⟨fun b hb => heq ▸ h.1 b hb, h.2⟩
    · simp only [SMap.get, if_neg hk] at hget
      simp only [distinctBy, SMap.insert, if_neg hk, SMap.values_cons,
        List.pairwise_cons]
      constructor
      · intro b hb
        rcases SMap.mem_values_insert hb with rfl | hb'
        · exact heq ▸ h.1 o (SMap.get_mem_values hget)
        · exact h.1 b hb'
      · exact ih hget h.2

theorem distinctBy_remove {α : Type} {g : α → String} {s : SMap α} {k : String}
    (h : distinctBy g s) : distinctBy g (SMap.remove s k) :=
  List.Pairwise.sublist (SMap.values_remove_sublist s k) h

/-! ## Entity data model (from src: User, Outcome, Course, Session) -/

/-- `User` class of the source (Date fields as `Nat`, nullable as `Option`). -/
structure User where
  id : String
  name : String
  pseudo : String
  avatarURL : String
  createdAt : Nat
  updatedAt : Option Nat
  deriving DecidableEq

/-- `UserPayload` class of the source. -/
structure UserPayload where
  name : String
  pseudo : String
  avatarURL : String
  deriving DecidableEq

/-- `enum OutcomeType` of the source. -/
inductive OutcomeType where
  | SKILL
  | CERTIFICATION
  | CERTIFIED_SKILL
  deriving DecidableEq

/-- `Outcome` class of the source. The `type` field is `Option OutcomeType`
because `checkOutcomePayload` tests `payload.type != null`: a JavaScript
caller may pass `null`, modelled as `none`. -/
structure Outcome where
  id : String
  title : String
  type : Option OutcomeType
  createdAt : Nat
  updatedAt : Option Nat
  deriving DecidableEq

/-- `OutcomePayload` class of the source. -/
structure OutcomePayload where
  title : String
  type : Option OutcomeType
  deriving DecidableEq

/-- `Course` class of the source. -/
structure Course where
  id : String
  title : String
  outcomes : List String
  creatorId : String
  createdAt : Nat
  updatedAt : Option Nat
  deriving DecidableEq

/-- `CoursePayload` class of the source. -/
structure CoursePayload where
  title : String
  outcomes : List String
  creatorId : String
  deriving DecidableEq

/-- `Session` class of `src/src/session/session.ts` (the only content of that
file besides `SessionPayload` and the `sessionsStorage` declaration). -/
structure Session where
  id : String
  course : String
  owner : String
  place : String
  date : Nat
  time : Nat
  length : Nat
  learnerCapacity : Nat
  createdAt : Nat
  updatedAt : Nat
  deriving DecidableEq

/-- `SessionPayload` class of `session.ts`. -/
structure SessionPayload where
  course : String
  owner : String
  place : String
  date : Nat
  time : Nat
  length : Nat
  learnerCapacity : Nat
  deriving DecidableEq

/-- `sessionsStorage`: a fresh (empty) durable map; `session.ts` declares the
storage but implements no operation over it. -/
def sessionsStorage : SMap Session := []

/-! ## Error values

Each registry operation in the source returns `T | string`; the distinct
error-message templates become constructors, carrying the interpolated data. -/

/-- The error strings of the User operations. -/
inductive UserErr where
  /-- "Error: invalid payload ..." / "... unvalid payload ...". -/
  | invalidPayload (p : UserPayload)
  /-- "Error: can't create/update user cause ‹pseudo› already exists". -/
  | duplicatePseudo (pseudo : String)
  /-- "... no user found matching id=‹id›". -/
  | notFound (id : String)
  deriving DecidableEq

/-- The error strings of the Outcome operations. -/
inductive OutcomeErr where
  /-- "Error: unexpected values in payload: ...". -/
  | invalidPayload (p : OutcomePayload)
  /-- "Error: title '‹title›' already exists". -/
  | duplicateTitle (title : String)
  /-- "Error: no outcome found with id=‹id›". -/
  | notFound (id : String)
  deriving DecidableEq

/-- The error strings of the Course operations. -/
inductive CourseErr where
  /-- "Error: course '‹title›' already exists". -/
  | duplicateTitle (title : String)
  /-- "Error: unexpected values in payload: ...". -/
  | invalidPayload (p : CoursePayload)
  /-- "Error: no course with id=‹id› found". -/
  | notFound (id : String)
  /-- The `'not found'` fallback of `removeCourse`. -/
  | removeMissing
  deriving DecidableEq

/-- `isErr r`: the operation returned an error string instead of a record. -/
def isErr {ε α : Type} : Except ε α → Bool
  | .error _ => true
  | .ok _ => false

instance {ε α : Type} [DecidableEq ε] [DecidableEq α] :
    DecidableEq (Except ε α) := fun a b =>
  match a, b with
  | .error e, .error e' =>
    if h : e = e' then .isTrue (by rw [h]) else .isFalse (by simp [h])
  | .ok v, .ok v' =>
    if h : v = v' then .isTrue (by rw [h]) else .isFalse (by simp [h])
  | .error _, .ok _ => .isFalse (by simp)
  | .ok _, .error _ => .isFalse (by simp)

/-! ## User registry (src/unnamed/part_001, first module) -/

/-- `getUsers()`. -/
def getUsers (s : SMap User) : List User :=
  SMap.values s

/-- `getUser(userId)` (the `|| error` is dead: an `Opt` object is truthy). -/
def getUser (s : SMap User) (userId : String) : Option User :=
  SMap.get s userId

/-- `checkPseudo(pseudo)`: some stored user has the same trimmed pseudo. -/
def checkPseudo (s : SMap User) (pseudo : String) : Bool :=
  (SMap.values s).any fun u => decide (jsTrim u.pseudo = jsTrim pseudo)

/-- `checkUserId(userId)`. -/
def checkUserId (s : SMap User) (userId : String) : Bool :=
  SMap.containsKey s userId

/-- `getIdFromPseudo(pseudo)` (exact comparison, no trim, as in the source). -/
def getIdFromPseudo (s : SMap User) (pseudo : String) : Option String :=
  match (SMap.values s).find? (fun u => decide (u.pseudo = pseudo)) with
  | some u => some u.id
  | none => none

/-- `checkPayload(payload)`: trimmed name length + trimmed pseudo length > 2. -/
def checkPayload (p : UserPayload) : Bool :=
  decide ((jsTrim p.name).length + (jsTrim p.pseudo).length > 2)

/-- `addUser(payload)`; `newId` stands for `uuidv4()`, `now` for the clock. -/
def addUser (newId : String) (now : Nat) (p : UserPayload) (s : SMap User) :
    Except UserErr User × SMap User :=
  if !checkPayload p then (.error (.invalidPayload p), s)
  else if checkPseudo s p.pseudo then (.error (.duplicatePseudo p.pseudo), s)
  else
    let u : User :=
      { id := newId, name := p.name, pseudo := p.pseudo, avatarURL := p.avatarURL,
        createdAt := now, updatedAt := none }
    (.ok u, SMap.insert s u.id u)

/-- `updateUser(userId, payload)`: guards in source order (id, pseudo,
payload), then `{id: userId, ...user, ...payload, updatedAt}` merged and
stored. The `none` match arm is unreachable: `checkUserId` passed. -/
def updateUser (now : Nat) (userId : String) (p : UserPayload) (s : SMap User) :
    Except UserErr User × SMap User :=
  if !checkUserId s userId then (.error (.notFound userId), s)
  else if checkPseudo s p.pseudo then (.error (.duplicatePseudo p.pseudo), s)
  else if !checkPayload p then (.error (.invalidPayload p), s)
  else
    match SMap.get s userId with
    | some u =>
      let u' : User :=
        { id := u.id, name := p.name, pseudo := p.pseudo, avatarURL := p.avatarURL,
          createdAt := u.createdAt, updatedAt := some now }
      (.ok u', SMap.insert s userId u')
    | none => (.error (.notFound userId), s)

/-- `removeUser(userId)`: returns the removed `Opt<User>` on success. -/
def removeUser (userId : String) (s : SMap User) :
    Except UserErr (Option User) × SMap User :=
  if !checkUserId s userId then (.error (.notFound userId), s)
  else (.ok (SMap.get s userId), SMap.remove s userId)

/-! ## Outcome registry (src/unnamed/part_001, second module) -/

/-- `getOutcomes()`. -/
def getOutcomes (s : SMap Outcome) : List Outcome :=
  SMap.values s

/-- `getOutcome(id)`. -/
def getOutcome (s : SMap Outcome) (id : String) : Option Outcome :=
  SMap.get s id

/-- `checkOutcomePayload(payload)`: non-blank title and non-null type. -/
def checkOutcomePayload (p : OutcomePayload) : Bool :=
  decide ((jsTrim p.title).length > 0) && p.type.isSome

/-- `isExistingOutcomeTitle(title)`: some stored outcome has the same trimmed
title. -/
def isExistingOutcomeTitle (s : SMap Outcome) (title : String) : Bool :=
  (SMap.values s).any fun o => decide (jsTrim o.title = jsTrim title)

/-- `chetOutcomeId(id)` (sic, the source's name). -/
def chetOutcomeId (s : SMap Outcome) (id : String) : Bool :=
  SMap.containsKey s id

/-- `addOutcome(payload)`. -/
def addOutcome (newId : String) (now : Nat) (p : OutcomePayload)
    (s : SMap Outcome) : Except OutcomeErr Outcome × SMap Outcome :=
  if !checkOutcomePayload p then (.error (.invalidPayload p), s)
  else if isExistingOutcomeTitle s p.title then (.error (.duplicateTitle p.title), s)
  else
    let o : Outcome :=
      { id := newId, title := p.title, type := p.type, createdAt := now,
        updatedAt := none }
    (.ok o, SMap.insert s o.id o)

/-- `updateOutcome(id, payload)`: the duplicate-title rejection is skipped
when the stored outcome's title equals the payload's title (exact string
comparison, as in the source). -/
def updateOutcome (now : Nat) (id : String) (p : OutcomePayload)
    (s : SMap Outcome) : Except OutcomeErr Outcome × SMap Outcome :=
  if !chetOutcomeId s id then (.error (.notFound id), s)
  else if !checkOutcomePayload p then (.error (.invalidPayload p), s)
  else
    match SMap.get s id with
    | some o =>
      if isExistingOutcomeTitle s p.title && !(decide (o.title = p.title)) then
        (.error (.duplicateTitle p.title), s)
      else
        let o' : Outcome :=
          { id := o.id, title := p.title, type := p.type,
            createdAt := o.createdAt, updatedAt := some now }
        (.ok o', SMap.insert s id o')
    | none => (.error (.notFound id), s)

/-- `removeOutcome(id)`. -/
def removeOutcome (id : String) (s : SMap Outcome) :
    Except OutcomeErr (Option Outcome) × SMap Outcome :=
  if !chetOutcomeId s id then (.error (.notFound id), s)
  else (.ok (SMap.get s id), SMap.remove s id)

/-! ## Course registry (src/unnamed/part_000)

The Course operations read the User and Outcome storages through the imported
validators `checkUserId` and `chetOutcomeId`; those storages are passed as
explicit read-only arguments. -/

/-- `getCourses()`. -/
def getCourses (s : SMap Course) : List Course :=
  SMap.values s

/-- `getCourse(id)`. -/
def getCourse (s : SMap Course) (id : String) : Option Course :=
  SMap.get s id

/-- `checkCourseId(courseId)`. -/
def checkCourseId (s : SMap Course) (courseId : String) : Bool :=
  SMap.containsKey s courseId

/-- `isExistingCourseTitle(title)`: some stored course has the same trimmed
title. -/
def isExistingCourseTitle (s : SMap Course) (title : String) : Bool :=
  (SMap.values s).any fun c => decide (jsTrim c.title = jsTrim title)

/-- `checkCoursePayload(payload)`: the source tests
`payload.title.trim().length >= 0` (kept verbatim: it is always true), that
`creatorId` is a stored user, and that every entry of `outcomes` is a stored
outcome. -/
def checkCoursePayload (users : SMap User) (outs : SMap Outcome)
    (p : CoursePayload) : Bool :=
  if decide ((jsTrim p.title).length ≥ 0) && checkUserId users p.creatorId then
    p.outcomes.all fun oid => chetOutcomeId outs oid
  else false

/-- `addCourse(payload)`: title-uniqueness check first, then payload check. -/
def addCourse (newId : String) (now : Nat) (users : SMap User)
    (outs : SMap Outcome) (p : CoursePayload) (s : SMap Course) :
    Except CourseErr Course × SMap Course :=
  if isExistingCourseTitle s p.title then (.error (.duplicateTitle p.title), s)
  else if !checkCoursePayload users outs p then (.error (.invalidPayload p), s)
  else
    let c : Course :=
      { id := newId, title := p.title, outcomes := p.outcomes,
        creatorId := p.creatorId, createdAt := now, updatedAt := none }
    (.ok c, SMap.insert s c.id c)

/-- `updateCourse(id, payload)`, kept verbatim from the source: the first
guard is `if (checkCourseId(id))` — it errors with the not-found message when
the id DOES exist — and the second guard is `if (!checkCourseId(id))`, so the
merge-and-store tail is unreachable. The `none` arm models the dead tail's
`getCourse(id).Some` access. -/
def updateCourse (now : Nat) (id : String) (p : CoursePayload)
    (s : SMap Course) : Except CourseErr Course × SMap Course :=
  if checkCourseId s id then (.error (.notFound id), s)
  else if !checkCourseId s id then (.error (.invalidPayload p), s)
  else
    match SMap.get s id with
    | some c =>
      let c' : Course :=
        { id := c.id, title := p.title, outcomes := p.outcomes,
          creatorId := p.creatorId, createdAt := c.createdAt,
          updatedAt := some now }
      (.ok c', SMap.insert s id c')
    | none => (.error (.notFound id), s)

/-- `removeCourse(id)`: `coursesStorage.remove(id).Some || 'not found'`. -/
def removeCourse (id : String) (s : SMap Course) :
    Except CourseErr Course × SMap Course :=
  if !checkCourseId s id then (.error (.notFound id), s)
  else
    match SMap.get s id with
    | some c => (.ok c, SMap.remove s id)
    | none => (.error .removeMissing, SMap.remove s id)

/-! ## The whole application state and its operation steps -/

/-- The three storages that hold data and interact (`usersStorage`,
`outcomesStorage`, `coursesStorage`; `sessionsStorage` has no operations). -/
structure AppState where
  users : SMap User
  outcomes : SMap Outcome
  courses : SMap Course
  deriving DecidableEq

/-- One mutating boundary call: add / update / remove on one of the three
registries, with the external inputs (`uuidv4()` result, clock value, ids and
payload) as constructor data. -/
inductive Op where
  | uAdd (newId : String) (now : Nat) (p : UserPayload)
  | uUpd (now : Nat) (id : String) (p : UserPayload)
  | uRem (id : String)
  | oAdd (newId : String) (now : Nat) (p : OutcomePayload)
  | oUpd (now : Nat) (id : String) (p : OutcomePayload)
  | oRem (id : String)
  | cAdd (newId : String) (now : Nat) (p : CoursePayload)
  | cUpd (now : Nat) (id : String) (p : CoursePayload)
  | cRem (id : String)
  deriving DecidableEq

/-- The state after one call (each call mutates at most its own registry). -/
def step (st : AppState) : Op → AppState
  | .uAdd newId now p => { st with users := (addUser newId now p st.users).2 }
  | .uUpd now id p => { st with users := (updateUser now id p st.users).2 }
  | .uRem id => { st with users := (removeUser id st.users).2 }
  | .oAdd newId now p => { st with outcomes := (addOutcome newId now p st.outcomes).2 }
  | .oUpd now id p => { st with outcomes := (updateOutcome now id p st.outcomes).2 }
  | .oRem id => { st with outcomes := (removeOutcome id st.outcomes).2 }
  | .cAdd newId now p =>
    { st with courses := (addCourse newId now st.users st.outcomes p st.courses).2 }
  | .cUpd now id p => { st with courses := (updateCourse now id p st.courses).2 }
  | .cRem id => { st with courses := (removeCourse id st.courses).2 }

/-- Whether the call returns an error string. -/
def opIsError (st : AppState) : Op → Bool
  | .uAdd newId now p => isErr (addUser newId now p st.users).1
  | .uUpd now id p => isErr (updateUser now id p st.users).1
  | .uRem id => isErr (removeUser id st.users).1
  | .oAdd newId now p => isErr (addOutcome newId now p st.outcomes).1
  | .oUpd now id p => isErr (updateOutcome now id p st.outcomes).1
  | .oRem id => isErr (removeOutcome id st.outcomes).1
  | .cAdd newId now p => isErr (addCourse newId now st.users st.outcomes p st.courses).1
  | .cUpd now id p => isErr (updateCourse now id p st.courses).1
  | .cRem id => isErr (removeCourse id st.courses).1

/-- A sequence of calls, applied in order. -/
def run (st : AppState) (ops : List Op) : AppState :=
  ops.foldl step st

/-- All storages start empty (fresh `StableBTreeMap` instances). -/
def initState : AppState :=
  { users := [], outcomes := [], courses := [] }

/-- The trimmed unique field of a User (`pseudo`). -/
def userKey (u : User) : String := jsTrim u.pseudo

/-- The trimmed unique field of an Outcome (`title`). -/
def outcomeKey (o : Outcome) : String := jsTrim o.title

/-- The trimmed unique field of a Course (`title`). -/
def courseKey (c : Course) : String := jsTrim c.title

/-! ## Scan characterizations -/

theorem checkPseudo_false {s : SMap User} {q : String}
    (h : checkPseudo s q = false) :
    ∀ u ∈ SMap.values s, jsTrim u.pseudo ≠ jsTrim q := by
  simpa [checkPseudo, List.any_eq_false] using h

theorem isExistingOutcomeTitle_false {s : SMap Outcome} {q : String}
    (h : isExistingOutcomeTitle s q = false) :
    ∀ o ∈ SMap.values s, jsTrim o.title ≠ jsTrim q := by
  simpa [isExistingOutcomeTitle, List.any_eq_false] using h

theorem isExistingCourseTitle_false {s : SMap Course} {q : String}
    (h : isExistingCourseTitle s q = false) :
    ∀ c ∈ SMap.values s, jsTrim c.title ≠ jsTrim q := by
  simpa [isExistingCourseTitle, List.any_eq_false] using h

/-! ## Per-operation uniqueness preservation -/

theorem addUser_distinct (newId : String) (now : Nat) (p : UserPayload)
    (s : SMap User) (h : distinctBy userKey s) :
    distinctBy userKey (addUser newId now p s).2 := by
  cases h1 : checkPayload p with
  | false => simpa [addUser, h1] using h
  | true =>
    cases h2 : checkPseudo s p.pseudo with
    | true => simpa [addUser, h1, h2] using h
    | false =>
      simp only [addUser, h1, h2, Bool.not_true, Bool.false_eq_true, if_false,
        Bool.not_false, if_true]
      exact distinctBy_insert_fresh
        (fun b hb => fun e => checkPseudo_false h2 b hb e.symm) h

theorem updateUser_distinct (now : Nat) (userId : String) (p : UserPayload)
    (s : SMap User) (h : distinctBy userKey s) :
    distinctBy userKey (updateUser now userId p s).2 := by
  cases h1 : checkUserId s userId with
  | false => simpa [updateUser, h1] using h
  | true =>
    cases h2 : checkPseudo s p.pseudo with
    | true => simpa [updateUser, h1, h2] using h
    | false =>
      cases h3 : checkPayload p with
      | false => simpa [updateUser, h1, h2, h3] using h
      | true =>
        cases hget : SMap.get s userId with
        | none => simpa [updateUser, h1, h2, h3, hget] using h
        | some u =>
          simp only [updateUser, h1, h2, h3, hget, Bool.not_true,
            Bool.false_eq_true, if_false, Bool.not_false, if_true]
          exact distinctBy_insert_fresh
            (fun b hb => fun e => checkPseudo_false h2 b hb e.symm) h

theorem removeUser_distinct (userId : String) (s : SMap User)
    (h : distinctBy userKey s) : distinctBy userKey (removeUser userId s).2 := by
  cases h1 : checkUserId s userId with
  | false => simpa [removeUser, h1] using h
  | true =>
    simp only [removeUser, h1, Bool.not_true, Bool.false_eq_true, if_false]
    exact distinctBy_remove h

theorem addOutcome_distinct (newId : String) (now : Nat) (p : OutcomePayload)
    (s : SMap Outcome) (h : distinctBy outcomeKey s) :
    distinctBy outcomeKey (addOutcome newId now p s).2 := by
  cases h1 : checkOutcomePayload p with
  | false => simpa [addOutcome, h1] using h
  | true =>
    cases h2 : isExistingOutcomeTitle s p.title with
    | true => simpa [addOutcome, h1, h2] using h
    | false =>
      simp only [addOutcome, h1, h2, Bool.not_true, Bool.false_eq_true, if_false,
        Bool.not_false, if_true]
      exact distinctBy_insert_fresh
        (fun b hb => fun e => isExistingOutcomeTitle_false h2 b hb e.symm) h

theorem updateOutcome_distinct (now : Nat) (id : String) (p : OutcomePayload)
    (s : SMap Outcome) (h : distinctBy outcomeKey s) :
    distinctBy outcomeKey (updateOutcome now id p s).2 := by
  cases h1 : chetOutcomeId s id with
  | false => simpa [updateOutcome, h1] using h
  | true =>
    cases h2 : checkOutcomePayload p with
    | false => simpa [updateOutcome, h1, h2] using h
    | true =>
      cases hget : SMap.get s id with
      | none => simpa [updateOutcome, h1, h2, hget] using h
      | some o =>
        cases hc : isExistingOutcomeTitle s p.title && !(decide (o.title = p.title)) with
        | true => simpa [updateOutcome, h1, h2, hget, hc] using h
        | false =>
          simp only [updateOutcome, h1, h2, hget, hc, Bool.not_true,
            Bool.false_eq_true, if_false, Bool.not_false, if_true]
          rcases Bool.and_eq_false_iff.mp hc with hc' | hc'
          · exact distinctBy_insert_fresh
              (fun b hb => fun e => isExistingOutcomeTitle_false hc' b hb e.symm) h
          · have ht : o.title = p.title := by
              have := congrArg (fun b => !b) hc'
              simpa [decide_eq_true_eq] using this
            exact distinctBy_insert_replace hget
              (show jsTrim p.title = jsTrim o.title by rw [ht]) h

theorem removeOutcome_distinct (id : String) (s : SMap Outcome)
    (h : distinctBy outcomeKey s) :
    distinctBy outcomeKey (removeOutcome id s).2 := by
  cases h1 : chetOutcomeId s id with
  | false => simpa [removeOutcome, h1] using h
  | true =>
    simp only [removeOutcome, h1, Bool.not_true, Bool.false_eq_true, if_false]
    exact distinctBy_remove h

theorem addCourse_distinct (newId : String) (now : Nat) (users : SMap User)
    (outs : SMap Outcome) (p : CoursePayload) (s : SMap Course)
    (h : distinctBy courseKey s) :
    distinctBy courseKey (addCourse newId now users outs p s).2 := by
  cases h1 : isExistingCourseTitle s p.title with
  | true => simpa [addCourse, h1] using h
  | false =>
    cases h2 : checkCoursePayload users outs p with
    | false => simpa [addCourse, h1, h2] using h
    | true =>
      simp only [addCourse, h1, h2, Bool.not_true, Bool.false_eq_true, if_false,
        Bool.not_false, if_true]
      exact distinctBy_insert_fresh
        (fun b hb => fun e => isExistingCourseTitle_false h1 b hb e.symm) h

theorem updateCourse_state (now : Nat) (id : String) (p : CoursePayload)
    (s : SMap Course) : (updateCourse now id p s).2 = s := by
  cases h : checkCourseId s id <;> simp [updateCourse, h]

theorem removeCourse_distinct (id : String) (s : SMap Course)
    (h : distinctBy courseKey s) :
    distinctBy courseKey (removeCourse id s).2 := by
  cases h1 : checkCourseId s id with
  | false => simpa [removeCourse, h1] using h
  | true =>
    cases hget : SMap.get s id with
    | none =>
      simp only [removeCourse, h1, Bool.not_true, Bool.false_eq_true, if_false, hget]
      exact distinctBy_remove h
    | some c =>
      simp only [removeCourse, h1, Bool.not_true, Bool.false_eq_true, if_false, hget]
      exact distinctBy_remove h

/-- The uniqueness invariant over the whole application state. -/
def RegInv (st : AppState) : Prop :=
  distinctBy userKey st.users ∧ distinctBy outcomeKey st.outcomes ∧
    distinctBy courseKey st.courses

theorem step_inv (st : AppState) (op : Op) (h : RegInv st) : RegInv (step st op) := by
  obtain ⟨h1, h2, h3⟩ := h
  cases op with
  | uAdd newId now p => exact ⟨addUser_distinct newId now p st.users h1, h2, h3⟩
  | uUpd now id p => exact ⟨updateUser_distinct now id p st.users h1, h2, h3⟩
  | uRem id => exact ⟨removeUser_distinct id st.users h1, h2, h3⟩
  | oAdd newId now p => exact ⟨h1, addOutcome_distinct newId now p st.outcomes h2, h3⟩
  | oUpd now id p => exact ⟨h1, updateOutcome_distinct now id p st.outcomes h2, h3⟩
  | oRem id => exact ⟨h1, removeOutcome_distinct id st.outcomes h2, h3⟩
  | cAdd newId now p =>
    exact ⟨h1, h2, addCourse_distinct newId now st.users st.outcomes p st.courses h3⟩
  | cUpd now id p =>
    refine ⟨h1, h2, ?_⟩
    show distinctBy courseKey (updateCourse now id p st.courses).2
    rw [updateCourse_state]
    exact h3
  | cRem id => exact ⟨h1, h2, removeCourse_distinct id st.courses h3⟩

theorem run_inv (ops : List Op) : ∀ st : AppState, RegInv st → RegInv (run st ops) := by
  induction ops with
  | nil => intro st h; exact h
  | cons op t ih => intro st h; exact ih (step st op) (step_inv st op h)

/-! ## Error paths leave the storage untouched -/

theorem addUser_err (newId : String) (now : Nat) (p : UserPayload)
    (s : SMap User) (h : isErr (addUser newId now p s).1 = true) :
    (addUser newId now p s).2 = s := by
  cases h1 : checkPayload p with
  | false => simp [addUser, h1]
  | true =>
    cases h2 : checkPseudo s p.pseudo with
    | true => simp [addUser, h1, h2]
    | false => simp [addUser, h1, h2, isErr] at h

theorem updateUser_err (now : Nat) (userId : String) (p : UserPayload)
    (s : SMap User) (h : isErr (updateUser now userId p s).1 = true) :
    (updateUser now userId p s).2 = s := by
  cases h1 : checkUserId s userId with
  | false => simp [updateUser, h1]
  | true =>
    cases h2 : checkPseudo s p.pseudo with
    | true => simp [updateUser, h1, h2]
    | false =>
      cases h3 : checkPayload p with
      | false => simp [updateUser, h1, h2, h3]
      | true =>
        cases hget : SMap.get s userId with
        | none => simp [updateUser, h1, h2, h3, hget]
        | some u => simp [updateUser, h1, h2, h3, hget, isErr] at h

theorem removeUser_err (userId : String) (s : SMap User)
    (h : isErr (removeUser userId s).1 = true) : (removeUser userId s).2 = s := by
  cases h1 : checkUserId s userId with
  | false => simp [removeUser, h1]
  | true => simp [removeUser, h1, isErr] at h

theorem addOutcome_err (newId : String) (now : Nat) (p : OutcomePayload)
    (s : SMap Outcome) (h : isErr (addOutcome newId now p s).1 = true) :
    (addOutcome newId now p s).2 = s := by
  cases h1 : checkOutcomePayload p with
  | false => simp [addOutcome, h1]
  | true =>
    cases h2 : isExistingOutcomeTitle s p.title with
    | true => simp [addOutcome, h1, h2]
    | false => simp [addOutcome, h1, h2, isErr] at h

theorem updateOutcome_err (now : Nat) (id : String) (p : OutcomePayload)
    (s : SMap Outcome) (h : isErr (updateOutcome now id p s).1 = true) :
    (updateOutcome now id p s).2 = s := by
  cases h1 : chetOutcomeId s id with
  | false => simp [updateOutcome, h1]
  | true =>
    cases h2 : checkOutcomePayload p with
    | false => simp [updateOutcome, h1, h2]
    | true =>
      cases hget : SMap.get s id with
      | none => simp [updateOutcome, h1, h2, hget]
      | some o =>
        cases hc : isExistingOutcomeTitle s p.title && !(decide (o.title = p.title)) with
        | true => simp [updateOutcome, h1, h2, hget, hc]
        | false => simp [updateOutcome, h1, h2, hget, hc, isErr] at h

theorem removeOutcome_err (id : String) (s : SMap Outcome)
    (h : isErr (removeOutcome id s).1 = true) : (removeOutcome id s).2 = s := by
  cases h1 : chetOutcomeId s id with
  | false => simp [removeOutcome, h1]
  | true => simp [removeOutcome, h1, isErr] at h

theorem addCourse_err (newId : String) (now : Nat) (users : SMap User)
    (outs : SMap Outcome) (p : CoursePayload) (s : SMap Course)
    (h : isErr (addCourse newId now users outs p s).1 = true) :
    (addCourse newId now users outs p s).2 = s := by
  cases h1 : isExistingCourseTitle s p.title with
  | true => simp [addCourse, h1]
  | false =>
    cases h2 : checkCoursePayload users outs p with
    | false => simp [addCourse, h1, h2]
    | true => simp [addCourse, h1, h2, isErr] at h

theorem removeCourse_err (id : String) (s : SMap Course)
    (h : isErr (removeCourse id s).1 = true) : (removeCourse id s).2 = s := by
  cases h1 : checkCourseId s id with
  | false => simp [removeCourse, h1]
  | true =>
    cases hget : SMap.get s id with
    | none =>
      simp only [removeCourse, h1, Bool.not_true, Bool.false_eq_true, if_false, hget]
      exact SMap.remove_of_get_none hget
    | some c => simp [removeCourse, h1, hget, isErr] at h

/-! ## Claim theorems -/

/-- C6: for every sequence of add/update/remove calls starting from empty
registries, no two live records of a registry with a unique field share the
trimmed value of that field (User.pseudo, Outcome.title, Course.title). -/
theorem registries_unique (ops : List Op) :
    distinctBy userKey (run initState ops).users ∧
    distinctBy outcomeKey (run initState ops).outcomes ∧
    distinctBy courseKey (run initState ops).courses :=
  run_inv ops initState ⟨List.Pairwise.nil, List.Pairwise.nil, List.Pairwise.nil⟩

/-- C8: every add/update/remove call that returns an error value leaves the
whole stored state exactly as it was (no partial mutation on error paths). -/
theorem error_leaves_state_unchanged (st : AppState) (op : Op)
    (h : opIsError st op = true) : step st op = st := by
  cases op with
  | uAdd newId now p =>
    have e := addUser_err newId now p st.users (by simpa [opIsError] using h)
    show { st with users := (addUser newId now p st.users).2 } = st
    rw [e]
  | uUpd now id p =>
    have e := updateUser_err now id p st.users (by simpa [opIsError] using h)
    show { st with users := (updateUser now id p st.users).2 } = st
    rw [e]
  | uRem id =>
    have e := removeUser_err id st.users (by simpa [opIsError] using h)
    show { st with users := (removeUser id st.users).2 } = st
    rw [e]
  | oAdd newId now p =>
    have e := addOutcome_err newId now p st.outcomes (by simpa [opIsError] using h)
    show { st with outcomes := (addOutcome newId now p st.outcomes).2 } = st
    rw [e]
  | oUpd now id p =>
    have e := updateOutcome_err now id p st.outcomes (by simpa [opIsError] using h)
    show { st with outcomes := (updateOutcome now id p st.outcomes).2 } = st
    rw [e]
  | oRem id =>
    have e := removeOutcome_err id st.outcomes (by simpa [opIsError] using h)
    show { st with outcomes := (removeOutcome id st.outcomes).2 } = st
    rw [e]
  | cAdd newId now p =>
    have e := addCourse_err newId now st.users st.outcomes p st.courses
      (by simpa [opIsError] using h)
    show { st with courses := (addCourse newId now st.users st.outcomes p st.courses).2 } = st
    rw [e]
  | cUpd now id p =>
    show { st with courses := (updateCourse now id p st.courses).2 } = st
    rw [updateCourse_state]
  | cRem id =>
    have e := removeCourse_err id st.courses (by simpa [opIsError] using h)
    show { st with courses := (removeCourse id st.courses).2 } = st
    rw [e]

/-- Witness for C8: a concrete erroring call (removing an absent user) at a
concrete state, with the hypothesis discharged by evaluation. -/
theorem error_leaves_state_unchanged_witness :
    opIsError initState (Op.uRem "x") = true ∧
    step initState (Op.uRem "x") = initState :=
  ⟨rfl, error_leaves_state_unchanged initState (Op.uRem "x") rfl⟩

/-- C10: `updateCourse` returns an error on every input — the not-found
message when the id is stored, the invalid-payload message when it is not —
and never changes the stored map; its success branch is unreachable. -/
theorem updateCourse_always_errors (now : Nat) (id : String) (p : CoursePayload)
    (s : SMap Course) :
    updateCourse now id p s =
      (Except.error (if checkCourseId s id then CourseErr.notFound id
        else CourseErr.invalidPayload p), s) := by
  cases h : checkCourseId s id <;> simp [updateCourse, h]

/-- C1 (failing input): `updateCourse` on the id of a LIVE course returns the
not-found error, contradicting "NotFound iff the id does not exist". -/
theorem updateCourse_notFound_on_live_id :
    (updateCourse 3 "a" (CoursePayload.mk "New" [] "u9")
      [("a", Course.mk "a" "Old" [] "u9" 1 none)]).1
      = Except.error (CourseErr.notFound "a") := by decide

/-- C2 (failing input): `updateCourse` with a live id and a payload that
passes `checkCoursePayload` and raises no title conflict still fails and
stores nothing: the merge-and-store tail is dead code. -/
theorem updateCourse_never_succeeds_on_valid_input :
    updateCourse 4 "b" (CoursePayload.mk "Fresh" [] "u1")
      [("b", Course.mk "b" "Intro" [] "u1" 1 none)]
      = (Except.error (CourseErr.notFound "b"),
         [("b", Course.mk "b" "Intro" [] "u1" 1 none)]) := by decide

/-- C5 (failing input): a Course payload whose title is all whitespace is NOT
rejected — `checkCoursePayload` tests `title.trim().length >= 0`, which is
always true — and the blank-titled course is stored. -/
theorem addCourse_accepts_blank_title :
    addCourse "c1" 7 [("u1", User.mk "u1" "Ada" "ada" "av" 1 none)] []
      (CoursePayload.mk " " [] "u1") []
      = (Except.ok (Course.mk "c1" " " [] "u1" 7 none),
         [("c1", Course.mk "c1" " " [] "u1" 7 none)]) := by decide

/-- C4 (counterexample): `updateUser` with the user's own current pseudo is
rejected as a duplicate — `checkPseudo` scans all users without excluding the
record being updated. -/
theorem updateUser_rejects_own_pseudo :
    updateUser 9 "u1" (UserPayload.mk "Ada" "ada" "av")
      [("u1", User.mk "u1" "Ada" "ada" "av" 1 none)]
      = (Except.error (UserErr.duplicatePseudo "ada"),
         [("u1", User.mk "u1" "Ada" "ada" "av" 1 none)]) := by decide

/-- C4 (amended): for the Outcome registry the claim holds — updating a live
outcome with a payload whose title equals the record's own current title is
not rejected as a duplicate; the title-unchanged test skips the check. -/
theorem updateOutcome_keeps_own_title (now : Nat) (id : String)
    (p : OutcomePayload) (s : SMap Outcome) (o : Outcome)
    (hget : SMap.get s id = some o) (hpay : checkOutcomePayload p = true)
    (htitle : p.title = o.title) :
    (updateOutcome now id p s).1 =
      Except.ok (Outcome.mk o.id p.title p.type o.createdAt (some now)) := by
  have hid : chetOutcomeId s id = true := by
    simp [chetOutcomeId, SMap.containsKey, hget]
  have hcond : (isExistingOutcomeTitle s p.title && !(decide (o.title = p.title)))
      = false := by simp [htitle]
  simp [updateOutcome, hid, hpay, hget, hcond]

/-- Witness for the amended C4: a concrete self-title update that succeeds. -/
theorem updateOutcome_keeps_own_title_witness :
    (updateOutcome 9 "o1" (OutcomePayload.mk "Yoga" (some OutcomeType.CERTIFICATION))
      [("o1", Outcome.mk "o1" "Yoga" (some OutcomeType.SKILL) 1 none)]).1
      = Except.ok (Outcome.mk "o1" "Yoga" (some OutcomeType.CERTIFICATION) 1 (some 9)) :=
  updateOutcome_keeps_own_title 9 "o1"
    (OutcomePayload.mk "Yoga" (some OutcomeType.CERTIFICATION))
    [("o1", Outcome.mk "o1" "Yoga" (some OutcomeType.SKILL) 1 none)]
    (Outcome.mk "o1" "Yoga" (some OutcomeType.SKILL) 1 none)
    (by decide) (by decide) (by decide)

/-- C7: when the payload's `creatorId` is not a live User id, or some entry of
`outcomes` is not a live Outcome id, `addCourse` fails (with the duplicate
message if the title also collides, else the payload-validation message that
covers reference failures) and stores nothing; `updateCourse` likewise fails
and stores nothing (it fails on every input). -/
theorem course_ops_fail_on_missing_refs (newId : String) (now : Nat)
    (users : SMap User) (outs : SMap Outcome) (p : CoursePayload)
    (s : SMap Course)
    (h : checkUserId users p.creatorId = false ∨
      ∃ oid ∈ p.outcomes, chetOutcomeId outs oid = false) :
    ((addCourse newId now users outs p s).1
        = Except.error (if isExistingCourseTitle s p.title
            then CourseErr.duplicateTitle p.title else CourseErr.invalidPayload p)
      ∧ (addCourse newId now users outs p s).2 = s)
    ∧ ∀ id, isErr (updateCourse now id p s).1 = true
        ∧ (updateCourse now id p s).2 = s := by
  have hpay : checkCoursePayload users outs p = false := by
    rcases h with h | ⟨oid, hmem, hbad⟩
    · simp [checkCoursePayload, h]
    · cases hcu : checkUserId users p.creatorId with
      | false => simp [checkCoursePayload, hcu]
      | true =>
        have hall : (p.outcomes.all fun oid => chetOutcomeId outs oid) = false := by
          rw [List.all_eq_false]
          exact ⟨oid, hmem, by simp [hbad]⟩
        simp [checkCoursePayload, hcu, hall]
  refine ⟨?_, ?_⟩
  · cases hex : isExistingCourseTitle s p.title with
    | true => simp [addCourse, hex]
    | false => simp [addCourse, hex, hpay]
  · intro id
    refine ⟨?_, updateCourse_state now id p s⟩
    cases hc : checkCourseId s id <;> simp [updateCourse, hc, isErr]

/-- Witness for C7: adding a course whose creator id is not stored, against
empty registries — the call errors with the payload message and stores
nothing, and `updateCourse` on the same payload also errors in place. -/
theorem course_ops_fail_on_missing_refs_witness :
    ((addCourse "c1" 0 [] [] (CoursePayload.mk "T" [] "ghost") []).1
        = Except.error (CourseErr.invalidPayload (CoursePayload.mk "T" [] "ghost"))
      ∧ (addCourse "c1" 0 [] [] (CoursePayload.mk "T" [] "ghost") []).2
        = ([] : SMap Course))
    ∧ (isErr (updateCourse 0 "z" (CoursePayload.mk "T" [] "ghost") []).1 = true
      ∧ (updateCourse 0 "z" (CoursePayload.mk "T" [] "ghost") []).2
        = ([] : SMap Course)) := by
  have h := course_ops_fail_on_missing_refs "c1" 0 [] []
    (CoursePayload.mk "T" [] "ghost") [] (Or.inl rfl)
  exact ⟨⟨h.1.1, h.1.2⟩, h.2 "z"⟩

/-- C9: a successful `updateUser` / `updateOutcome` returns and stores a
record with the same `id` and the same `createdAt` as the prior record under
that id (`updateCourse` never succeeds, see C10). -/
theorem update_preserves_id_createdAt (now : Nat) (idU : String)
    (pU : UserPayload) (sU : SMap User) (u : User) (idO : String)
    (pO : OutcomePayload) (sO : SMap Outcome) (o : Outcome)
    (hu : SMap.get sU idU = some u) (ho : SMap.get sO idO = some o) :
    (∀ r s', updateUser now idU pU sU = (Except.ok r, s') →
      r.id = u.id ∧ r.createdAt = u.createdAt ∧ SMap.get s' idU = some r)
    ∧ (∀ r s', updateOutcome now idO pO sO = (Except.ok r, s') →
      r.id = o.id ∧ r.createdAt = o.createdAt ∧ SMap.get s' idO = some r) := by
  constructor
  · intro r s' hr
    have hid : checkUserId sU idU = true := by
      simp [checkUserId, SMap.containsKey, hu]
    cases h2 : checkPseudo sU pU.pseudo with
    | true => simp [updateUser, hid, h2] at hr
    | false =>
      cases h3 : checkPayload pU with
      | false => simp [updateUser, hid, h2, h3] at hr
      | true =>
        simp only [updateUser, hid, h2, h3, hu, Bool.not_true, Bool.not_false,
          Bool.false_eq_true, if_false, if_true, Prod.mk.injEq,
          Except.ok.injEq] at hr
        obtain ⟨hru, hrs⟩ := hr
        subst hru
        subst hrs
        exact ⟨rfl, rfl, SMap.get_insert_self sU idU _⟩
  · intro r s' hr
    have hid : chetOutcomeId sO idO = true := by
      simp [chetOutcomeId, SMap.containsKey, ho]
    cases h2 : checkOutcomePayload pO with
    | false => simp [updateOutcome, hid, h2] at hr
    | true =>
      cases hc : isExistingOutcomeTitle sO pO.title && !(decide (o.title = pO.title)) with
      | true => simp [updateOutcome, hid, h2, ho, hc] at hr
      | false =>
        simp only [updateOutcome, hid, h2, ho, hc, Bool.not_true, Bool.not_false,
          Bool.false_eq_true, if_false, if_true, Prod.mk.injEq,
          Except.ok.injEq] at hr
        obtain ⟨hru, hrs⟩ := hr
        subst hru
        subst hrs
        exact ⟨rfl, rfl, SMap.get_insert_self sO idO _⟩

/-- Witness for C9: one concrete successful update on each of the two
registries, with live prior records and fresh unique values. -/
theorem update_preserves_id_createdAt_witness :
    ((User.mk "u1" "Al" "bee" "z" 1 (some 5)).id
        = (User.mk "u1" "Ada" "ada" "av" 1 none).id
      ∧ (User.mk "u1" "Al" "bee" "z" 1 (some 5)).createdAt
        = (User.mk "u1" "Ada" "ada" "av" 1 none).createdAt
      ∧ SMap.get [("u1", User.mk "u1" "Al" "bee" "z" 1 (some 5))] "u1"
        = some (User.mk "u1" "Al" "bee" "z" 1 (some 5)))
    ∧ ((Outcome.mk "o1" "Run" (some OutcomeType.SKILL) 2 (some 5)).id
        = (Outcome.mk "o1" "Yoga" (some OutcomeType.SKILL) 2 none).id
      ∧ (Outcome.mk "o1" "Run" (some OutcomeType.SKILL) 2 (some 5)).createdAt
        = (Outcome.mk "o1" "Yoga" (some OutcomeType.SKILL) 2 none).createdAt
      ∧ SMap.get [("o1", Outcome.mk "o1" "Run" (some OutcomeType.SKILL) 2 (some 5))] "o1"
        = some (Outcome.mk "o1" "Run" (some OutcomeType.SKILL) 2 (some 5))) := by
  have h := update_preserves_id_createdAt 5 "u1" (UserPayload.mk "Al" "bee" "z")
    [("u1", User.mk "u1" "Ada" "ada" "av" 1 none)]
    (User.mk "u1" "Ada" "ada" "av" 1 none)
    "o1" (OutcomePayload.mk "Run" (some OutcomeType.SKILL))
    [("o1", Outcome.mk "o1" "Yoga" (some OutcomeType.SKILL) 2 none)]
    (Outcome.mk "o1" "Yoga" (some OutcomeType.SKILL) 2 none)
    (by decide) (by decide)
  exact ⟨h.1 _ _ (by decide), h.2 _ _ (by decide)⟩
